import Mathlib

set_option autoImplicit false
set_option maxHeartbeats 1000000

/-!
Verification development for the vex-reader repository, file `vex/package.py`:
the product-tree indexer (`VexPackages.build_product_tree`, `product_lookup`)
and the remediation / product-status classifier (`VexPackages.parse_packages`
with the record constructors `Fix`, `WontFix`, `Affected`, `NotAffected`).

Python dictionaries from the parsed JSON document are embedded as structures
with `Option` fields where the code checks for key presence, and plain fields
where the code indexes unconditionally.  A Python `KeyError` or `ValueError`
surfaces as `none` in an `Option`-valued result.

The module `vex/constants.py` is not among the sources; its two imported
items (`filter_components` and `VENDOR_ADVISORY`) are modelled from the spec
as explicit parameters, see `keepAll` and the `table` parameters below.
-/

namespace Vex

/-- Embedding of the Python expression `s.split(sep)` over character lists:
`goSplit sep l` cuts `l` at every occurrence of `sep`, keeping empty pieces,
and never returns an empty list (Python `"".split(sep)` is `[""]`). -/
def goSplit (sep : Char) : List Char → List (List Char)
  | [] => [[]]
  | c :: cs =>
    match goSplit sep cs with
    | [] => [[]]
    | h :: t => if c = sep then [] :: h :: t else (c :: h) :: t

/-- Embedding of Python `s.split(sep)` on strings. -/
def pySplit (sep : Char) (s : String) : List String :=
  (goSplit sep s.data).map (fun l => String.mk l)

/-- Embedding of Python `sep.join(xs)` over character lists. -/
def joinChars (sep : Char) : List (List Char) → List Char
  | [] => []
  | [x] => x
  | x :: y :: t => x ++ sep :: joinChars sep (y :: t)

/-- Embedding of Python `sep.join(xs)` for a one-character separator. -/
def pyJoin (sep : Char) (xs : List String) : String :=
  String.mk (joinChars sep (xs.map String.data))

/-- Embedding of the Python substring test `needle in hay`. -/
def occursIn (needle hay : String) : Bool :=
  (List.range (hay.data.length + 1)).any (fun i => needle.data.isPrefixOf (hay.data.drop i))

/-- Embedding of `product_lookup` from `vex/package.py`: walk the list of
single-entry product maps and return the name stored under the first map
whose key is the given product id; Python falls through and implicitly
returns `None` when nothing matches. -/
def product_lookup (product : String) (pmap : List (String × String)) : Option String :=
  match pmap with
  | [] => none
  | x :: rest => if x.1 = product then some x.2 else product_lookup product rest

/-- One remediation entry of a vulnerability, as accessed by the code: the
keys `category`, `url`, `details` and `product_ids` are indexed without a
presence check, so they are plain fields here. -/
structure Remediation where
  category : String
  url : String
  details : String
  product_ids : List String
  deriving DecidableEq

/-- Record built by the Python class `Fix`.  `id` is the attribute that is
initialised to `None` (so `none` here means the Python value `None`), while
`vendor` and `product` are attributes that are only assigned inside loops:
`none` for those two means the attribute is never created, so reading it
would raise `AttributeError`. -/
structure Fix where
  id : Option String
  url : String
  components : List String
  vendor : Option String
  product : Option (Option String)
  deriving DecidableEq

/-- One step of the `for v in VENDOR_ADVISORY` loop in `Fix.__init__`: on a
marker match the advisory id is recomputed from the URL (final `/` segment)
and, for the Gentoo vendor, prefixed with the marker and a hyphen. -/
def vendorStep (url : String) (acc : Option String × Option String)
    (vp : String × String) : Option String × Option String :=
  if occursIn vp.1 url then
    (some (if vp.2 = "Gentoo" then vp.1 ++ "-" ++ (pySplit '/' url).getLastD ""
           else (pySplit '/' url).getLastD ""), some vp.2)
  else acc

/-- The advisory id and vendor computed by the marker loop of `Fix.__init__`,
starting from `id = None` and no `vendor` attribute. -/
def fixIdVendor (table : List (String × String)) (url : String) :
    Option String × Option String :=
  table.foldl (vendorStep url) (none, none)

/-- One step of the component loop of `Fix.__init__`: the Python tuple
unpacking `(product, component, version) = y.split(":")` demands exactly
three segments and raises `ValueError` otherwise. -/
def fixCompStep (pmap : List (String × String))
    (acc : List String × Option (Option String)) (y : String) :
    Option (List String × Option (Option String)) :=
  match pySplit ':' y with
  | [product, component, version] =>
    some (acc.1 ++ [pyJoin ':' [component, version]], some (product_lookup product pmap))
  | _ => none

/-- Embedding of `Fix.__init__`.  The `table` parameter stands for the
imported `VENDOR_ADVISORY` mapping and `keep` for the imported
`filter_components` predicate (both live in `vex/constants.py`, which is not
among the sources; the spec describes them as an ordered marker-to-vendor
table and a pluggable component filter). -/
def Fix.init (table : List (String × String)) (keep : String → Bool)
    (x : Remediation) (pmap : List (String × String)) : Option Fix :=
  match (x.product_ids.filter keep).foldlM (fixCompStep pmap) ([], none) with
  | none => none
  | some cp =>
    some { id := (fixIdVendor table x.url).1, url := x.url, components := cp.1,
           vendor := (fixIdVendor table x.url).2, product := cp.2 }

/-- Record built by the Python class `WontFix` (the stray debug print in its
constructor is a side effect with no bearing on the record). -/
structure WontFix where
  reason : String
  component : String
  product : Option String
  deriving DecidableEq

/-- Embedding of `WontFix.__init__`: the tuple unpacking
`(product, self.component) = y.split(":")` demands exactly two segments and
raises `ValueError` otherwise. -/
def WontFix.init (y : String) (details : String) (pmap : List (String × String)) :
    Option WontFix :=
  match pySplit ':' y with
  | [product, component] =>
    some { reason := details, component := component,
           product := product_lookup product pmap }
  | _ => none

/-- Record built by the Python class `NotAffected`. -/
structure NotAffected where
  components : List String
  product : Option String
  deriving DecidableEq

/-- Embedding of `NotAffected.__init__`: `t = y.split(":")`, product is
`t[0]`, the single stored component is `":".join(t[1:])`.  Total: every
identifier, however many segments, yields a record. -/
def NotAffected.init (y : String) (pmap : List (String × String)) : NotAffected :=
  { components := [pyJoin ':' (pySplit ':' y).tail],
    product := product_lookup ((pySplit ':' y).headD "") pmap }

/-- Record built by the Python class `Affected`. -/
structure Affected where
  components : List String
  product : Option String
  deriving DecidableEq

/-- Embedding of `Affected.__init__`, identical in shape to `NotAffected`. -/
def Affected.init (y : String) (pmap : List (String × String)) : Affected :=
  { components := [pyJoin ':' (pySplit ':' y).tail],
    product := product_lookup ((pySplit ':' y).headD "") pmap }

/-- A node of the document product tree.  Every field models an optional
JSON key; `product_id` stands for the path `product.product_id`. -/
inductive Branch where
  | mk (category : Option String) (name : Option String)
       (product_id : Option String) (branches : Option (List Branch))

def Branch.category : Branch → Option String
  | .mk c _ _ _ => c

def Branch.name : Branch → Option String
  | .mk _ n _ _ => n

def Branch.product_id : Branch → Option String
  | .mk _ _ p _ => p

def Branch.branches : Branch → Option (List Branch)
  | .mk _ _ _ b => b

/-- Innermost loop body of `build_product_tree`: third-level node `c`.  The
`category` key is checked for presence, but `name` and `product.product_id`
are then indexed unconditionally, so their absence is a `KeyError`. -/
def catStep (acc : List (String × String)) (c : Branch) :
    Option (List (String × String)) :=
  match c.category with
  | none => some acc
  | some cat =>
    if cat = "product_name" then
      match c.name, c.product_id with
      | some nm, some pid => some (acc ++ [(pid, nm)])
      | _, _ => none
    else some acc

/-- Middle loop body of `build_product_tree`: second-level node `b`.  Here
the code does check `if "branches" in b.keys()`, so a missing key skips the
node. -/
def midStep (acc : List (String × String)) (b : Branch) :
    Option (List (String × String)) :=
  match b.branches with
  | none => some acc
  | some cs => cs.foldlM catStep acc

/-- Outer loop body of `build_product_tree`: top-level node `p`.  The code
indexes `p["branches"]` without a presence check, so a missing key raises
`KeyError`. -/
def topStep (acc : List (String × String)) (p : Branch) :
    Option (List (String × String)) :=
  match p.branches with
  | none => none
  | some bs => bs.foldlM midStep acc

/-- Embedding of `VexPackages.build_product_tree`: the fixed three-level walk
over `product_tree.branches` collecting `(product_id, name)` pairs from
third-level nodes whose category is `product_name`. -/
def build_product_tree (roots : List Branch) : Option (List (String × String)) :=
  roots.foldlM topStep []

/-- The `(product_id, name)` entry a single node contributes when it is a
`product_name` node carrying both a name and an id. -/
def nodeEntry (c : Branch) : List (String × String) :=
  match c.category with
  | none => []
  | some cat =>
    if cat = "product_name" then
      match c.name, c.product_id with
      | some nm, some pid => [(pid, nm)]
      | _, _ => []
    else []

/-- Entries contributed by the children of a second-level node. -/
def midEntry (b : Branch) : List (String × String) :=
  ((b.branches.getD []).map nodeEntry).flatten

/-- Entries contributed by a top-level node through exactly two levels of
children. -/
def topEntry (p : Branch) : List (String × String) :=
  ((p.branches.getD []).map midEntry).flatten

/-- The third-level `product_name` entries of a tree, in walk order: what
`build_product_tree` collects whenever it terminates without a `KeyError`. -/
def thirdLevelProducts (roots : List Branch) : List (String × String) :=
  (roots.map topEntry).flatten

mutual
/-- Spec-side definition, written from the words of the spec for comparison
with `build_product_tree`: collect every node tagged `product_name`,
whatever its depth, recursing through however many `branches` levels are
present. -/
def specProducts : Branch → List (String × String)
  | .mk cat nm pid brs =>
    (if cat = some "product_name" then
      match pid, nm with
      | some p, some n => [(p, n)]
      | _, _ => []
     else []) ++
    (match brs with
     | none => []
     | some bs => specProductsList bs)

/-- Spec-side definition: `specProducts` over a list of sibling nodes. -/
def specProductsList : List Branch → List (String × String)
  | [] => []
  | b :: bs => specProducts b ++ specProductsList bs
end

/-- One vulnerability entry, keeping only the two keys the classifier reads;
both are checked with `in` before use, hence `Option`. -/
structure Vulnerability where
  remediations : Option (List Remediation)
  product_status : Option (List (String × List String))
  deriving DecidableEq

/-- The five classification buckets built by `parse_packages`.  A Python
workaround entry `{"details": d, "packages": l}` is the pair `(d, l)`. -/
structure Buckets where
  fixes : List Fix
  workarounds : List (String × List String)
  wontfix : List WontFix
  affected : List Affected
  not_affected : List NotAffected
  deriving DecidableEq

def emptyBuckets : Buckets :=
  { fixes := [], workarounds := [], wontfix := [], affected := [], not_affected := [] }

/-- Body of the `for x in k["remediations"]` loop of `parse_packages`: three
independent category tests, exactly as in the code. -/
def remStep (table : List (String × String)) (keep : String → Bool)
    (pmap : List (String × String)) (acc : Buckets) (x : Remediation) :
    Option Buckets :=
  match (if x.category = "vendor_fix" then
           (Fix.init table keep x pmap).map
             (fun f => { acc with fixes := acc.fixes ++ [f] })
         else some acc) with
  | none => none
  | some a1 =>
    let a2 := if x.category = "workaround" then
        { a1 with workarounds := a1.workarounds ++ [(x.details, x.product_ids.filter keep)] }
      else a1
    if x.category = "no_fix_planned" then
      x.product_ids.foldlM
        (fun b y => (WontFix.init y x.details pmap).map
          (fun w => { b with wontfix := b.wontfix ++ [w] })) a2
    else some a2

/-- Body of the `for x in k["product_status"]` loop of `parse_packages`:
iterate the status keys of the dictionary; only `known_affected` and
`known_not_affected` are handled, other keys are ignored. -/
def statusStep (keep : String → Bool) (pmap : List (String × String))
    (acc : Buckets) (ps : List (String × List String)) : Buckets :=
  ps.foldl (fun a kv =>
    let a1 := if kv.1 = "known_affected" then
        { a with affected := a.affected ++ (kv.2.filter keep).map (fun y => Affected.init y pmap) }
      else a
    if kv.1 = "known_not_affected" then
      { a1 with not_affected := a1.not_affected ++ (kv.2.filter keep).map (fun y => NotAffected.init y pmap) }
    else a1) acc

/-- Body of the `for k in self.raw["vulnerabilities"]` loop: remediations
first (when the key is present), then product status (when present). -/
def vulnStep (table : List (String × String)) (keep : String → Bool)
    (pmap : List (String × String)) (acc : Buckets) (k : Vulnerability) :
    Option Buckets :=
  match (match k.remediations with
         | none => some acc
         | some rems => rems.foldlM (remStep table keep pmap) acc) with
  | none => none
  | some a1 =>
    some (match k.product_status with
          | none => a1
          | some ps => statusStep keep pmap a1 ps)

/-- Embedding of `VexPackages.parse_packages`: reset the five buckets and
fold the vulnerability entries. -/
def parse_packages (table : List (String × String)) (keep : String → Bool)
    (vulns : List Vulnerability) (pmap : List (String × String)) : Option Buckets :=
  vulns.foldlM (vulnStep table keep pmap) emptyBuckets

/-- The parts of the raw document that `VexPackages` reads:
`raw["product_tree"]["branches"]` and `raw["vulnerabilities"]`. -/
structure VexDoc where
  product_tree_branches : List Branch
  vulnerabilities : List Vulnerability

/-- The mutable attributes of a `VexPackages` object that the two methods
assign: `pmap` and the five buckets. -/
structure VexState where
  pmap : List (String × String)
  buckets : Buckets
  deriving DecidableEq

/-- Effect of calling the method `build_product_tree` on an object state:
`self.pmap` is reassigned from scratch, the buckets are untouched. -/
def runBuild (doc : VexDoc) (s : VexState) : Option VexState :=
  match build_product_tree doc.product_tree_branches with
  | none => none
  | some m => some { s with pmap := m }

/-- Effect of calling the method `parse_packages` on an object state: the
five buckets are reassigned from scratch using the current `self.pmap`. -/
def runParse (table : List (String × String)) (keep : String → Bool)
    (doc : VexDoc) (s : VexState) : Option VexState :=
  match parse_packages table keep doc.vulnerabilities s.pmap with
  | none => none
  | some b => some { s with buckets := b }

/-- Embedding of `VexPackages.__init__` from a given starting state: call
`build_product_tree`, then `parse_packages`. -/
def runInit (table : List (String × String)) (keep : String → Bool)
    (doc : VexDoc) (s : VexState) : Option VexState :=
  match runBuild doc s with
  | none => none
  | some s1 => runParse table keep doc s1

/-- The identity-true filter: one admissible configuration of the pluggable
`filter_components` predicate (modelled from the spec: the predicate excludes
only configured source-package or architecture-only patterns, so a
configuration with no such patterns keeps everything). -/
def keepAll : String → Bool := fun _ => true

/-- The `WontFix` record built from a two-segment identifier `y`, expressed
through the generic first-segment / rejoined-remainder decomposition. -/
def wontfixOf (d : String) (pmap : List (String × String)) (y : String) : WontFix :=
  { reason := d, component := pyJoin ':' (pySplit ':' y).tail,
    product := product_lookup ((pySplit ':' y).headD "") pmap }

theorem goSplit_ne_nil (sep : Char) (l : List Char) : goSplit sep l ≠ [] := by
  cases l with
  | nil => simp [goSplit]
  | cons c cs =>
    simp only [goSplit]
    cases goSplit sep cs with
    | nil => simp
    | cons h t =>
      by_cases hc : c = sep <;> simp [hc]

theorem joinChars_goSplit (sep : Char) (l : List Char) :
    joinChars sep (goSplit sep l) = l := by
  induction l with
  | nil => simp [goSplit, joinChars]
  | cons c cs ih =>
    simp only [goSplit]
    cases hg : goSplit sep cs with
    | nil => exact absurd hg (goSplit_ne_nil sep cs)
    | cons h t =>
      rw [hg] at ih
      by_cases hc : c = sep
      · subst hc
        simpa [joinChars] using ih
      · simp only [if_neg hc]
        cases t with
        | nil => simpa [joinChars] using ih
        | cons y t' => simpa [joinChars] using ih

/-- A split with a single piece means the separator does not occur: the piece
is the whole input. -/
theorem pySplit_singleton (sep : Char) (s m : String) (h : pySplit sep s = [m]) : m = s := by
  unfold pySplit at h
  cases hg : goSplit sep s.data with
  | nil => exact absurd hg (goSplit_ne_nil sep s.data)
  | cons x t =>
    rw [hg] at h
    cases t with
    | nil =>
      simp only [List.map] at h
      have hx : m = String.mk x := by simpa using h.symm
      have hj := joinChars_goSplit sep s.data
      rw [hg] at hj
      simp only [joinChars] at hj
      rw [hx, hj]
    | cons y t' => simp [List.map] at h

theorem pySplit_ne_nil (sep : Char) (s : String) : pySplit sep s ≠ [] := by
  unfold pySplit
  intro h
  exact goSplit_ne_nil sep s.data (by simpa using h)

theorem product_lookup_not_found (product : String) (pmap : List (String × String))
    (h : ∀ e ∈ pmap, e.1 ≠ product) : product_lookup product pmap = none := by
  induction pmap with
  | nil => rfl
  | cons x rest ih =>
    have hx : x.1 ≠ product := h x (by simp)
    simp only [product_lookup, if_neg hx]
    exact ih (fun e he => h e (by simp [he]))

/-- Generic shape of the three nested loops of `build_product_tree`: a loop
body that can only append a fixed contribution per element turns the fold
into the flattened list of contributions. -/
theorem foldlM_entries {α : Type} (step : List (String × String) → α → Option (List (String × String)))
    (f : α → List (String × String))
    (hstep : ∀ acc x r, step acc x = some r → r = acc ++ f x) :
    ∀ (l : List α) (acc r : List (String × String)),
      l.foldlM step acc = some r → r = acc ++ (l.map f).flatten := by
  intro l
  induction l with
  | nil =>
    intro acc r h
    have hacc : acc = r := by simpa using h
    subst hacc
    simp
  | cons x xs ih =>
    intro acc r h
    rw [List.foldlM_cons] at h
    cases hs : step acc x with
    | none => rw [hs] at h; simp at h
    | some a =>
      rw [hs] at h
      have hbind : xs.foldlM step a = some r := by simpa using h
      have hr := ih a r hbind
      have ha := hstep acc x a hs
      subst ha
      simp [hr, List.append_assoc]

theorem catStep_some (acc : List (String × String)) (c : Branch) (a : List (String × String))
    (h : catStep acc c = some a) : a = acc ++ nodeEntry c := by
  obtain ⟨cat, nm, pid, brs⟩ := c
  cases cat with
  | none =>
    simp only [catStep, nodeEntry, Branch.category] at h ⊢
    simp_all
  | some cat =>
    by_cases hc : cat = "product_name"
    · subst hc
      cases nm <;> cases pid <;>
        simp_all [catStep, nodeEntry, Branch.category, Branch.name, Branch.product_id]
    · simp_all [catStep, nodeEntry, Branch.category, hc]

theorem midStep_some (acc : List (String × String)) (b : Branch) (a : List (String × String))
    (h : midStep acc b = some a) : a = acc ++ midEntry b := by
  obtain ⟨cat, nm, pid, brs⟩ := b
  cases brs with
  | none => simp_all [midStep, midEntry, Branch.branches]
  | some cs =>
    simp only [midStep, Branch.branches] at h
    simp only [midEntry, Branch.branches, Option.getD_some]
    exact foldlM_entries catStep nodeEntry catStep_some cs acc a h

theorem topStep_some (acc : List (String × String)) (p : Branch) (a : List (String × String))
    (h : topStep acc p = some a) : a = acc ++ topEntry p := by
  obtain ⟨cat, nm, pid, brs⟩ := p
  cases brs with
  | none => simp_all [topStep, Branch.branches]
  | some bs =>
    simp only [topStep, Branch.branches] at h
    simp only [topEntry, Branch.branches, Option.getD_some]
    exact foldlM_entries midStep midEntry midStep_some bs acc a h

/-- The component loop of `Fix.__init__` on a list of three-segment
identifiers: components accumulate one rejoined `component:version` string
per identifier, and the product attribute ends up as the resolution of the
last identifier of the list (each iteration overwrites it). -/
theorem fixFold_eq (pmap : List (String × String)) (l : List String)
    (h : ∀ y ∈ l, (pySplit ':' y).length = 3) :
    ∀ (cs0 : List String) (p0 : Option (Option String)),
      l.foldlM (fixCompStep pmap) (cs0, p0) =
        some (cs0 ++ l.map (fun y => pyJoin ':' (pySplit ':' y).tail),
              match l.getLast? with
              | none => p0
              | some z => some (product_lookup ((pySplit ':' z).headD "") pmap)) := by
  induction l with
  | nil => intro cs0 p0; simp
  | cons y ys ih =>
    intro cs0 p0
    have hy : (pySplit ':' y).length = 3 := h y (by simp)
    obtain ⟨p, c, v, hsplit⟩ := List.length_eq_three.mp hy
    have hys : ∀ z ∈ ys, (pySplit ':' z).length = 3 := fun z hz => h z (by simp [hz])
    rw [List.foldlM_cons]
    have hstep : fixCompStep pmap (cs0, p0) y =
        some (cs0 ++ [pyJoin ':' [c, v]], some (product_lookup p pmap)) := by
      simp [fixCompStep, hsplit]
    rw [hstep]
    have := ih hys (cs0 ++ [pyJoin ':' [c, v]]) (some (product_lookup p pmap))
    simp only [Option.bind_eq_bind, Option.some_bind]
    rw [this]
    cases ys with
    | nil => simp [hsplit]
    | cons z zs =>
      rw [List.getLast?_cons_cons]
      cases hl : (z :: zs).getLast? with
      | none => simp at hl
      | some w =>
        simp only [hl, List.map_cons, Option.some.injEq, Prod.mk.injEq]
        refine ⟨?_, trivial⟩
        simp [hsplit, List.append_assoc]

/-- A run of vendor-advisory markers none of which occurs in the URL leaves
the id / vendor accumulator unchanged. -/
theorem vendorFold_no_match (url : String) (t : List (String × String))
    (h : ∀ p ∈ t, occursIn p.1 url = false) (acc : Option String × Option String) :
    t.foldl (vendorStep url) acc = acc := by
  induction t generalizing acc with
  | nil => rfl
  | cons q qs ih =>
    have hq : occursIn q.1 url = false := h q (by simp)
    rw [List.foldl_cons]
    have : vendorStep url acc q = acc := by simp [vendorStep, hq]
    rw [this]
    exact ih (fun p hp => h p (by simp [hp])) acc

/-- When no marker of the table occurs in the URL, the advisory id keeps its
initial `None` value and the vendor attribute is never created. -/
theorem fixIdVendor_no_match (table : List (String × String)) (url : String)
    (h : ∀ p ∈ table, occursIn p.1 url = false) :
    fixIdVendor table url = (none, none) :=
  vendorFold_no_match url table h (none, none)

/-- When the pair `(v, ven)` is the last marker of the table that occurs in
the URL, the loop leaves exactly the id and vendor computed at that entry:
the final slash-segment of the URL, marker-prefixed for the Gentoo vendor. -/
theorem fixIdVendor_last_match (t1 t2 : List (String × String)) (v ven url : String)
    (hv : occursIn v url = true)
    (h2 : ∀ p ∈ t2, occursIn p.1 url = false) :
    fixIdVendor (t1 ++ (v, ven) :: t2) url =
      (some (if ven = "Gentoo" then v ++ "-" ++ (pySplit '/' url).getLastD ""
             else (pySplit '/' url).getLastD ""), some ven) := by
  unfold fixIdVendor
  rw [List.foldl_append, List.foldl_cons]
  have hmatch : vendorStep url (t1.foldl (vendorStep url) (none, none)) (v, ven) =
      (some (if ven = "Gentoo" then v ++ "-" ++ (pySplit '/' url).getLastD ""
             else (pySplit '/' url).getLastD ""), some ven) := by
    simp [vendorStep, hv]
  rw [hmatch]
  exact vendorFold_no_match url t2 h2 _

/-- The `no_fix_planned` loop of `parse_packages` on a list of two-segment
identifiers: one `WontFix` record is appended per identifier, in order. -/
theorem wontfixFold_eq (d : String) (pmap : List (String × String)) (ids : List String)
    (h : ∀ y ∈ ids, (pySplit ':' y).length = 2) :
    ∀ b : Buckets,
      ids.foldlM (fun b y => (WontFix.init y d pmap).map
        (fun w => { b with wontfix := b.wontfix ++ [w] })) b =
      some { b with wontfix := b.wontfix ++ ids.map (wontfixOf d pmap) } := by
  induction ids with
  | nil => intro b; simp
  | cons y ys ih =>
    intro b
    have hy : (pySplit ':' y).length = 2 := h y (by simp)
    obtain ⟨p, c, hsplit⟩ := List.length_eq_two.mp hy
    have hys : ∀ z ∈ ys, (pySplit ':' z).length = 2 := fun z hz => h z (by simp [hz])
    rw [List.foldlM_cons]
    have hinit : WontFix.init y d pmap =
        some { reason := d, component := c, product := product_lookup p pmap } := by
      simp [WontFix.init, hsplit]
    have hrec : wontfixOf d pmap y =
        { reason := d, component := c, product := product_lookup p pmap } := by
      simp [wontfixOf, hsplit]
      rfl
    rw [hinit]
    simp only [Option.map_some', Option.bind_eq_bind, Option.some_bind]
    rw [ih hys]
    simp [hrec, List.append_assoc]

/-- Claim C1, counterexample: a `product_name` node sitting at the second
nesting level (one grouping level, not two) is a node the spec-side
any-depth collection records, yet `build_product_tree` records nothing for
it — the walk does assume a fixed depth. -/
theorem c1_counterexample :
    build_product_tree [Branch.mk none none none
        (some [Branch.mk (some "product_name") (some "Widget 1.0") (some "WID1") none])] =
      some []
    ∧ specProductsList [Branch.mk none none none
        (some [Branch.mk (some "product_name") (some "Widget 1.0") (some "WID1") none])] =
      [("WID1", "Widget 1.0")] := by
  constructor
  · decide
  · simp [specProductsList, specProducts]

/-- Claim C1, amended: whenever `build_product_tree` completes, the index it
returns consists of exactly the `product_name` nodes found at the third
nesting level (root branches, their branches, their branches), once each in
walk order; nodes at any other depth are never recorded, so the walk does
assume a fixed depth. -/
theorem c1_third_level_only (roots : List Branch) (m : List (String × String))
    (h : build_product_tree roots = some m) : m = thirdLevelProducts roots := by
  unfold build_product_tree at h
  unfold thirdLevelProducts
  simpa using foldlM_entries topStep topEntry topStep_some roots [] m h

/-- Claim C1, witness for the amended theorem at a concrete three-level
tree. -/
theorem c1_witness :
    ([("WID1", "Widget 1.0")] : List (String × String)) =
      thirdLevelProducts [Branch.mk none none none (some [Branch.mk none none none
        (some [Branch.mk (some "product_name") (some "Widget 1.0") (some "WID1") none])])] :=
  c1_third_level_only _ _ (by decide)

/-- Claim C2, counterexample: the claim says every constructor splits off the
first segment and rejoins the rest, with `"p:c:v"` giving component
`"c:v"` in `WontFix` and `"p:c:v:extra"` giving component `"c:v:extra"` in
`Fix`; instead both constructions raise `ValueError` (here: `none`). -/
theorem c2_counterexample :
    WontFix.init "p:c:v" "r" [] = none ∧
    Fix.init [] keepAll { category := "vendor_fix", url := "u", details := "d", product_ids := ["p:c:v:extra"] } [] = none :=
  ⟨by decide, by decide⟩

/-- Claim C2, amended: `Affected` and `NotAffected` decompose every composite
identifier into first segment (product id) and colon-rejoined remainder
(component), never splitting the component further; `Fix` accepts only
identifiers with exactly three segments (component = second and third
rejoined) and `WontFix` only identifiers with exactly two (component = the
single remaining segment), and both fail on any other segment count. -/
theorem c2_decomposition (y p d : String) (rest : List String)
    (pmap : List (String × String)) (h : pySplit ':' y = p :: rest) :
    Affected.init y pmap =
      { components := [pyJoin ':' rest], product := product_lookup p pmap } ∧
    NotAffected.init y pmap =
      { components := [pyJoin ':' rest], product := product_lookup p pmap } ∧
    (∀ c, rest = [c] → WontFix.init y d pmap =
      some { reason := d, component := c, product := product_lookup p pmap }) ∧
    (rest.length ≠ 1 → WontFix.init y d pmap = none) ∧
    (∀ c v acc, rest = [c, v] → fixCompStep pmap acc y =
      some (acc.1 ++ [pyJoin ':' [c, v]], some (product_lookup p pmap))) ∧
    (rest.length ≠ 2 → ∀ acc, fixCompStep pmap acc y = none) := by
  refine ⟨?_, ?_, ?_, ?_, ?_, ?_⟩
  · simp [Affected.init, h]
  · simp [NotAffected.init, h]
  · intro c hc
    subst hc
    simp [WontFix.init, h]
  · intro hlen
    unfold WontFix.init
    rw [h]
    cases rest with
    | nil => rfl
    | cons c cs =>
      cases cs with
      | nil => exact absurd rfl hlen
      | cons c2 cs2 => rfl
  · intro c v acc hc
    subst hc
    simp [fixCompStep, h]
  · intro hlen acc
    unfold fixCompStep
    rw [h]
    cases rest with
    | nil => rfl
    | cons c cs =>
      cases cs with
      | nil => rfl
      | cons v vs =>
        cases vs with
        | nil => exact absurd rfl hlen
        | cons w ws => rfl

/-- Claim C2, witness for the amended theorem: the four-segment identifier
from the claim, decomposed by `Affected`. -/
theorem c2_witness :
    Affected.init "p:c:v:extra" [] =
      { components := [pyJoin ':' ["c", "v", "extra"]], product := product_lookup "p" [] } :=
  (c2_decomposition "p:c:v:extra" "p" "d" ["c", "v", "extra"] [] (by decide)).1

/-- Claim C3, counterexample: a one-segment identifier in a
`known_affected` list does not fail loudly; classification returns a bucket
containing a silently built record with the whole identifier as product id
and an empty component. -/
theorem c3_counterexample :
    parse_packages [] keepAll [{ remediations := none, product_status := some [("known_affected", ["p"])] }] [] =
      some { emptyBuckets with affected := [{ components := [""], product := none }] } := by
  decide

/-- Claim C3, amended: an identifier with fewer than two colon-separated
segments fails loudly only in the `Fix` and `WontFix` constructors (tuple
unpacking raises `ValueError`); in the `Affected` and `NotAffected`
constructors it is silently classified, with the whole identifier used as
the product id and an empty component string. -/
theorem c3_malformed (y d : String) (pmap : List (String × String))
    (acc : List String × Option (Option String))
    (h : (pySplit ':' y).length < 2) :
    WontFix.init y d pmap = none ∧
    fixCompStep pmap acc y = none ∧
    Affected.init y pmap = { components := [""], product := product_lookup y pmap } ∧
    NotAffected.init y pmap = { components := [""], product := product_lookup y pmap } := by
  have h1 : (pySplit ':' y).length = 1 := by
    have hne := pySplit_ne_nil ':' y
    have hpos : 0 < (pySplit ':' y).length := List.length_pos.mpr hne
    omega
  obtain ⟨m, hm⟩ := List.length_eq_one.mp h1
  have hy : m = y := pySplit_singleton ':' y m hm
  subst hy
  have hjoin : pyJoin ':' ([] : List String) = "" := rfl
  refine ⟨?_, ?_, ?_, ?_⟩
  · simp [WontFix.init, hm]
  · simp [fixCompStep, hm]
  · simp [Affected.init, hm, hjoin]
  · simp [NotAffected.init, hm, hjoin]

/-- Claim C3, witness for the amended theorem at the one-segment identifier
`"p"`. -/
theorem c3_witness :
    WontFix.init "p" "d" [] = none ∧
    fixCompStep [] ([], none) "p" = none ∧
    Affected.init "p" [] = { components := [""], product := product_lookup "p" [] } ∧
    NotAffected.init "p" [] = { components := [""], product := product_lookup "p" [] } :=
  c3_malformed "p" "d" [] ([], none) (by decide)

/-- Claim C4, confirmed: when the product id of a composite identifier is
absent from the index, lookup returns the explicit `None` sentinel, the
record is still built with that sentinel as its product, and classification
of a status list containing the identifier completes and keeps the record. -/
theorem c4_unresolved_product (y : String) (pmap : List (String × String))
    (h : ∀ e ∈ pmap, e.1 ≠ (pySplit ':' y).headD "") :
    (Affected.init y pmap).product = none ∧
    (NotAffected.init y pmap).product = none ∧
    parse_packages [] keepAll [{ remediations := none, product_status := some [("known_affected", [y]), ("known_not_affected", [y])] }] pmap =
      some { emptyBuckets with affected := [Affected.init y pmap], not_affected := [NotAffected.init y pmap] } := by
  have hl := product_lookup_not_found ((pySplit ':' y).headD "") pmap h
  have hl2 : product_lookup ((pySplit ':' y).head?.getD "") pmap = none := by
    simpa [List.headD_eq_head?_getD] using hl
  refine ⟨?_, ?_, ?_⟩
  · simp [Affected.init, hl2]
  · simp [NotAffected.init, hl2]
  · rfl

/-- Claim C4, witness at the unresolved identifier of the spec example. -/
theorem c4_witness :
    (Affected.init "UNKNOWN:pkg:1.0" [("WID1", "Widget 1.0")]).product = none ∧
    (NotAffected.init "UNKNOWN:pkg:1.0" [("WID1", "Widget 1.0")]).product = none ∧
    parse_packages [] keepAll [{ remediations := none, product_status := some [("known_affected", ["UNKNOWN:pkg:1.0"]), ("known_not_affected", ["UNKNOWN:pkg:1.0"])] }]
      [("WID1", "Widget 1.0")] =
      some { emptyBuckets with affected := [Affected.init "UNKNOWN:pkg:1.0" [("WID1", "Widget 1.0")]], not_affected := [NotAffected.init "UNKNOWN:pkg:1.0" [("WID1", "Widget 1.0")]] } :=
  c4_unresolved_product "UNKNOWN:pkg:1.0" [("WID1", "Widget 1.0")] (by decide)

/-- Claim C5, counterexample: a top-level product-tree node without a
`branches` key is not treated as nothing to classify; the unconditional
indexing `p["branches"]` raises `KeyError` and classification fails. -/
theorem c5_counterexample :
    runInit [] keepAll { product_tree_branches := [Branch.mk (some "vendor") (some "V") none none], vulnerabilities := [] } { pmap := [], buckets := emptyBuckets } = none := by
  decide

/-- Claim C5, amended: a vulnerability entry missing `remediations` or
`product_status` contributes nothing and classification continues, and a
second-level product-tree node missing `branches` is skipped; but a
top-level product-tree node missing `branches` raises `KeyError` instead of
being treated as nothing to classify. -/
theorem c5_schema_gap :
    (∀ (table : List (String × String)) (keep : String → Bool)
       (pmap : List (String × String)) (acc : Buckets),
      vulnStep table keep pmap acc { remediations := none, product_status := none } = some acc)
    ∧ (∀ (cat nm pid : Option String) (acc : List (String × String)),
      midStep acc (Branch.mk cat nm pid none) = some acc)
    ∧ (∀ (cat nm pid : Option String) (acc : List (String × String)),
      topStep acc (Branch.mk cat nm pid none) = none) :=
  ⟨fun _ _ _ _ => rfl, fun _ _ _ _ => rfl, fun _ _ _ _ => rfl⟩

/-- Claim C5, witness for the amended theorem. -/
theorem c5_witness :
    vulnStep [] keepAll [] emptyBuckets { remediations := none, product_status := none } =
      some emptyBuckets :=
  c5_schema_gap.1 [] keepAll [] emptyBuckets

/-- Claim C6, counterexample: a `no_fix_planned` remediation listing the
three-segment identifier `"p:c:v"` does not yield one `WontFix` record per
identifier; the two-element tuple unpacking in `WontFix` raises
`ValueError` and no record is emitted. -/
theorem c6_counterexample :
    remStep [] keepAll [] emptyBuckets { category := "no_fix_planned", url := "u", details := "d", product_ids := ["p:c:v"] } = none := by
  decide

/-- Claim C6, amended: for a `no_fix_planned` remediation all of whose
listed identifiers have exactly two colon-separated segments, the classifier
emits exactly one `WontFix` record per listed identifier with no filtering
applied, each decomposed and product-resolved and carrying the shared
details text as its reason; an identifier with any other segment count makes
classification fail instead. -/
theorem c6_wontfix_per_identifier (table : List (String × String)) (keep : String → Bool)
    (pmap : List (String × String)) (acc : Buckets) (url d : String) (ids : List String)
    (h : ∀ y ∈ ids, (pySplit ':' y).length = 2) :
    remStep table keep pmap acc { category := "no_fix_planned", url := url, details := d, product_ids := ids } =
    some { acc with wontfix := acc.wontfix ++ ids.map (wontfixOf d pmap) } :=
  wontfixFold_eq d pmap ids h acc

/-- Claim C6, witness for the amended theorem. -/
theorem c6_witness :
    remStep [] keepAll [("WID1", "Widget 1.0")] emptyBuckets { category := "no_fix_planned", url := "u", details := "no plans", product_ids := ["WID1:widget"] } =
    some { emptyBuckets with wontfix := emptyBuckets.wontfix ++ ["WID1:widget"].map (wontfixOf "no plans" [("WID1", "Widget 1.0")]) } :=
  c6_wontfix_per_identifier [] keepAll [("WID1", "Widget 1.0")] emptyBuckets "u" "no plans"
    ["WID1:widget"] (by decide)

/-- Claim C7, confirmed: a `vendor_fix` remediation yields exactly one `Fix`
record appended for the whole remediation, with all filtered components
batched into that single record; when the last matching marker of the vendor
table is `(v, ven)`, the advisory id is the final slash-separated segment of
the URL, prefixed with the marker and a hyphen exactly when the vendor is
Gentoo.  The hypotheses require three-segment filtered identifiers (anything
else raises `ValueError`, see C2) and a marker match (see C10 for none). -/
theorem c7_vendor_fix (t1 t2 : List (String × String)) (v ven : String) (keep : String → Bool)
    (pmap : List (String × String)) (acc : Buckets) (url d : String) (ids : List String)
    (hv : occursIn v url = true)
    (h2 : ∀ q ∈ t2, occursIn q.1 url = false)
    (h3 : ∀ y ∈ ids.filter keep, (pySplit ':' y).length = 3) :
    ∃ f, remStep (t1 ++ (v, ven) :: t2) keep pmap acc { category := "vendor_fix", url := url, details := d, product_ids := ids } =
        some { acc with fixes := acc.fixes ++ [f] } ∧
      f.components = (ids.filter keep).map (fun y => pyJoin ':' (pySplit ':' y).tail) ∧
      f.id = some (if ven = "Gentoo" then v ++ "-" ++ (pySplit '/' url).getLastD ""
                   else (pySplit '/' url).getLastD "") ∧
      f.vendor = some ven := by
  have hfold := fixFold_eq pmap (ids.filter keep) h3 [] none
  have hid := fixIdVendor_last_match t1 t2 v ven url hv h2
  have hfix : Fix.init (t1 ++ (v, ven) :: t2) keep { category := "vendor_fix", url := url, details := d, product_ids := ids } pmap =
      some { id := some (if ven = "Gentoo" then v ++ "-" ++ (pySplit '/' url).getLastD ""
                         else (pySplit '/' url).getLastD ""),
             url := url,
             components := [] ++ (ids.filter keep).map (fun y => pyJoin ':' (pySplit ':' y).tail),
             vendor := some ven,
             product := match (ids.filter keep).getLast? with
                        | none => none
                        | some z => some (product_lookup ((pySplit ':' z).headD "") pmap) } := by
    simp only [Fix.init]
    rw [hfold, hid]
  refine ⟨{ id := some (if ven = "Gentoo" then v ++ "-" ++ (pySplit '/' url).getLastD ""
                        else (pySplit '/' url).getLastD ""),
            url := url,
            components := [] ++ (ids.filter keep).map (fun y => pyJoin ':' (pySplit ':' y).tail),
            vendor := some ven,
            product := match (ids.filter keep).getLast? with
                       | none => none
                       | some z => some (product_lookup ((pySplit ':' z).headD "") pmap) },
          ?_, ?_, rfl, rfl⟩
  · simp [remStep, hfix]
  · simp

/-- Claim C7, witness at a concrete Gentoo-style remediation. -/
theorem c7_witness :
    ∃ f, remStep ([] ++ ("glsa", "Gentoo") :: []) keepAll [] emptyBuckets { category := "vendor_fix", url := "https://security.gentoo.org/glsa/202401-01", details := "d", product_ids := ["WID1:widget:1.0"] } =
        some { emptyBuckets with fixes := emptyBuckets.fixes ++ [f] } ∧
      f.components = (["WID1:widget:1.0"].filter keepAll).map (fun y => pyJoin ':' (pySplit ':' y).tail) ∧
      f.id = some (if "Gentoo" = "Gentoo" then
                     "glsa" ++ "-" ++ (pySplit '/' "https://security.gentoo.org/glsa/202401-01").getLastD ""
                   else (pySplit '/' "https://security.gentoo.org/glsa/202401-01").getLastD "") ∧
      f.vendor = some "Gentoo" :=
  c7_vendor_fix [] [] "glsa" "Gentoo" keepAll [] emptyBuckets
    "https://security.gentoo.org/glsa/202401-01" "d" ["WID1:widget:1.0"]
    (by decide) (by decide) (by decide)

/-- Claim C8, confirmed: running the constructor body (index build followed
by classification) a second time from the state it produced yields exactly
that state again — both methods reassign their attributes from the raw
document, so a rerun cannot drift. -/
theorem c8_idempotent (table : List (String × String)) (keep : String → Bool)
    (doc : VexDoc) (s s1 : VexState)
    (h : runInit table keep doc s = some s1) : runInit table keep doc s1 = some s1 := by
  obtain ⟨sp, sb⟩ := s
  obtain ⟨tp, tb⟩ := s1
  unfold runInit runBuild runParse at h ⊢
  cases hb : build_product_tree doc.product_tree_branches with
  | none =>
    rw [hb] at h
    exact Option.noConfusion h
  | some m =>
    simp only [hb] at h ⊢
    cases hp : parse_packages table keep doc.vulnerabilities m with
    | none =>
      simp only [hp] at h
      exact Option.noConfusion h
    | some b =>
      simp only [hp] at h
      simp only [Option.some.injEq, VexState.mk.injEq] at h
      obtain ⟨rfl, rfl⟩ := h
      simp [hp]

/-- Claim C8, witness: a concrete document classified from a fresh state
reaches a state that a second run reproduces. -/
theorem c8_witness :
    runInit [] keepAll
      { product_tree_branches := [Branch.mk none none none (some [Branch.mk none none none (some [Branch.mk (some "product_name") (some "Widget 1.0") (some "WID1") none])])],
        vulnerabilities := [{ remediations := none, product_status := some [("known_affected", ["WID1:widget:1.0"])] }] }
      { pmap := [("WID1", "Widget 1.0")],
        buckets := { fixes := [], workarounds := [], wontfix := [],
                     affected := [{ components := ["widget:1.0"], product := some "Widget 1.0" }],
                     not_affected := [] } } =
    some { pmap := [("WID1", "Widget 1.0")],
           buckets := { fixes := [], workarounds := [], wontfix := [],
                        affected := [{ components := ["widget:1.0"], product := some "Widget 1.0" }],
                        not_affected := [] } } :=
  c8_idempotent [] keepAll
    { product_tree_branches := [Branch.mk none none none (some [Branch.mk none none none (some [Branch.mk (some "product_name") (some "Widget 1.0") (some "WID1") none])])],
      vulnerabilities := [{ remediations := none, product_status := some [("known_affected", ["WID1:widget:1.0"])] }] }
    { pmap := [], buckets := emptyBuckets } _ (by decide)

/-- Claim C9, confirmed: inside a `vendor_fix` remediation the product
attribute of the single `Fix` record is overwritten on every filtered
identifier, so it ends up as the resolution of the last one only; and when
the filtered identifier list is empty the attribute is never assigned at all
(`none` in the outer layer of the `product` field encodes the missing
attribute, whose access would raise `AttributeError`). -/
theorem c9_last_product_wins (table : List (String × String)) (keep : String → Bool)
    (pmap : List (String × String)) (url d : String) (ids : List String)
    (h : ∀ y ∈ ids.filter keep, (pySplit ':' y).length = 3) :
    ∃ f, Fix.init table keep { category := "vendor_fix", url := url, details := d, product_ids := ids } pmap = some f ∧
      (ids.filter keep = [] → f.product = none) ∧
      (∀ z, (ids.filter keep).getLast? = some z →
        f.product = some (product_lookup ((pySplit ':' z).headD "") pmap)) := by
  have hfold := fixFold_eq pmap (ids.filter keep) h [] none
  refine ⟨{ id := (fixIdVendor table url).1, url := url,
            components := [] ++ (ids.filter keep).map (fun y => pyJoin ':' (pySplit ':' y).tail),
            vendor := (fixIdVendor table url).2,
            product := match (ids.filter keep).getLast? with
                       | none => none
                       | some z => some (product_lookup ((pySplit ':' z).headD "") pmap) },
          ?_, ?_, ?_⟩
  · simp only [Fix.init]
    rw [hfold]
  · intro hnil
    simp [hnil]
  · intro z hz
    simp [hz]

/-- Claim C9, witness: two identifiers resolving to different products; the
record keeps the product of the second. -/
theorem c9_witness :
    ∃ f, Fix.init [] keepAll { category := "vendor_fix", url := "u", details := "d", product_ids := ["A:c:1", "B:e:2"] } [("A", "PA"), ("B", "PB")] = some f ∧
      (["A:c:1", "B:e:2"].filter keepAll = [] → f.product = none) ∧
      (∀ z, (["A:c:1", "B:e:2"].filter keepAll).getLast? = some z →
        f.product = some (product_lookup ((pySplit ':' z).headD "") [("A", "PA"), ("B", "PB")])) :=
  c9_last_product_wins [] keepAll [("A", "PA"), ("B", "PB")] "u" "d" ["A:c:1", "B:e:2"]
    (by decide)

/-- Claim C10, confirmed: when no marker of the vendor table occurs in the
URL of a `vendor_fix` remediation, the advisory id stays the `None` sentinel
and the vendor attribute is never created, yet the `Fix` record is still
emitted into the fixes bucket. -/
theorem c10_unmatched_vendor (table : List (String × String)) (keep : String → Bool)
    (pmap : List (String × String)) (acc : Buckets) (url d : String) (ids : List String)
    (hm : ∀ q ∈ table, occursIn q.1 url = false)
    (h3 : ∀ y ∈ ids.filter keep, (pySplit ':' y).length = 3) :
    ∃ f, remStep table keep pmap acc { category := "vendor_fix", url := url, details := d, product_ids := ids } =
        some { acc with fixes := acc.fixes ++ [f] } ∧
      f.id = none ∧ f.vendor = none := by
  have hfold := fixFold_eq pmap (ids.filter keep) h3 [] none
  have hid := fixIdVendor_no_match table url hm
  have hfix : Fix.init table keep { category := "vendor_fix", url := url, details := d, product_ids := ids } pmap =
      some { id := none, url := url,
             components := [] ++ (ids.filter keep).map (fun y => pyJoin ':' (pySplit ':' y).tail),
             vendor := none,
             product := match (ids.filter keep).getLast? with
                        | none => none
                        | some z => some (product_lookup ((pySplit ':' z).headD "") pmap) } := by
    simp only [Fix.init]
    rw [hfold, hid]
  refine ⟨{ id := none, url := url,
            components := [] ++ (ids.filter keep).map (fun y => pyJoin ':' (pySplit ':' y).tail),
            vendor := none,
            product := match (ids.filter keep).getLast? with
                       | none => none
                       | some z => some (product_lookup ((pySplit ':' z).headD "") pmap) },
          ?_, rfl, rfl⟩
  simp [remStep, hfix]

/-- Claim C10, witness at a URL containing no known marker. -/
theorem c10_witness :
    ∃ f, remStep [("RHSA", "Red Hat")] keepAll [] emptyBuckets { category := "vendor_fix", url := "https://example.com/advisory/1", details := "d", product_ids := ["A:c:1"] } =
        some { emptyBuckets with fixes := emptyBuckets.fixes ++ [f] } ∧
      f.id = none ∧ f.vendor = none :=
  c10_unmatched_vendor [("RHSA", "Red Hat")] keepAll [] emptyBuckets
    "https://example.com/advisory/1" "d" ["A:c:1"] (by decide) (by decide)

end Vex
